import Mathlib

/-! Verification development for the rust-helper multi-project aggregation and
concurrent-task-orchestration engine.  The frontend orchestration code lives in
src/src/App.tsx and src/src/components/Sidebar.tsx (TypeScript/React); the data
model mirrors the exported interfaces of the frontend type module.  Pure
functions and event handlers are shallowly embedded as Lean functions; reactive
state updates become explicit state passing; Date.now() values are passed as
explicit arguments; Tauri invoke calls issued by a handler are recorded
explicitly where a property depends on them. -/

namespace RustHelper

/-- BackgroundJob (App.tsx lines 501-505 and the exported UI type): opaque id,
human-readable label, start time. -/
structure BackgroundJob where
  id : String
  label : String
  startTime : Nat
deriving DecidableEq, Repr

/-- addJob (App.tsx 508-510): setJobs((prev) => [...prev, { id, label,
startTime: Date.now() }]) — appends unconditionally; Date.now() is passed as
the explicit argument now. -/
def addJob (prev : List BackgroundJob) (id label : String) (now : Nat) :
    List BackgroundJob :=
  prev ++ [{ id := id, label := label, startTime := now }]

/-- removeJob (App.tsx 512-514): setJobs((prev) => prev.filter((j) => j.id !==
id)). -/
def removeJob (prev : List BackgroundJob) (id : String) : List BackgroundJob :=
  prev.filter (fun j => j.id != id)

/-- Project descriptor (exported Project interface of the frontend type
module; produced by the scan_projects command). -/
structure Project where
  name : String
  path : String
  target_size : Nat
  dep_count : Nat
  last_modified : Nat
  is_workspace_member : Bool
  workspace_root : Option String
  git_url : Option String
  commit_count : Nat
  version : Option String
  rust_version : Option String
  homepage : Option String
deriving DecidableEq, Repr

/-- Path set passed by checkAllOutdated to check_all_outdated (App.tsx
666-669): projects.filter((p) => !p.is_workspace_member).map((p) => p.path). -/
def checkAllOutdatedPaths (projects : List Project) : List String :=
  (projects.filter (fun p => !p.is_workspace_member)).map (fun p => p.path)

/-- Path set passed by checkAllAudits to check_all_audits (App.tsx 881-883). -/
def checkAllAuditsPaths (projects : List Project) : List String :=
  (projects.filter (fun p => !p.is_workspace_member)).map (fun p => p.path)

/-- Path set passed by analyzeDependencies to analyze_dependencies (App.tsx
1234-1236). -/
def analyzeDependenciesPaths (projects : List Project) : List String :=
  (projects.filter (fun p => !p.is_workspace_member)).map (fun p => p.path)

/-- Path set passed by analyzeToolchains to analyze_toolchains (App.tsx
1255-1257). -/
def analyzeToolchainsPaths (projects : List Project) : List String :=
  (projects.filter (fun p => !p.is_workspace_member)).map (fun p => p.path)

/-- Path set passed by analyzeLicenses to check_all_licenses (App.tsx
1276-1278). -/
def analyzeLicensesPaths (projects : List Project) : List String :=
  (projects.filter (fun p => !p.is_workspace_member)).map (fun p => p.path)

/-- Grouping of one dependency version and the projects using it
(VersionUsage interface). -/
structure VersionUsage where
  version : String
  projects : List String
deriving DecidableEq, Repr

/-- Per-dependency usage across projects (DepUsage interface): versions is
the list of distinct version groups produced by the analyze_dependencies
aggregation. -/
structure DepUsage where
  name : String
  versions : List VersionUsage
  project_count : Nat
deriving DecidableEq, Repr

/-- Aggregate dependency analysis (DepAnalysis interface). -/
structure DepAnalysis where
  dependencies : List DepUsage
  total_unique_deps : Nat
  deps_with_mismatches : Nat
deriving DecidableEq, Repr

/-- Version Mismatches list rendered in the analysis view (App.tsx
2454-2456): depAnalysis.dependencies.filter((d) => d.versions.length > 1). -/
def versionMismatchList (a : DepAnalysis) : List DepUsage :=
  a.dependencies.filter (fun d => d.versions.length > 1)

/-- Placeholder condition of the analysis view (App.tsx 2483-2487): the
"No version mismatches found" paragraph is rendered exactly when
dependencies.filter((d) => d.versions.length > 1).length === 0. -/
def noMismatchPlaceholderShown (a : DepAnalysis) : Bool :=
  (a.dependencies.filter (fun d => d.versions.length > 1)).length == 0

/-- One outdated dependency row (OutdatedDep interface). -/
structure OutdatedDep where
  name : String
  current : String
  latest : String
  kind : String
deriving DecidableEq, Repr

/-- Per-project outdated-check result envelope (OutdatedResult interface). -/
structure OutdatedResult where
  project_path : String
  project_name : String
  dependencies : List OutdatedDep
  success : Bool
  error : Option String
deriving DecidableEq, Repr

/-- Main results list of the dependencies view (App.tsx 2011-2013):
outdatedResults.filter((r) => r.success).sort((a, b) =>
b.dependencies.length - a.dependencies.length); the JS comparator orders by
outdated count descending, modelled by a stable merge sort with the matching
total relation. -/
def outdatedSuccessList (results : List OutdatedResult) : List OutdatedResult :=
  (results.filter (fun r => r.success)).mergeSort
    (fun a b => decide (b.dependencies.length ≤ a.dependencies.length))

/-- Error list of the dependencies view (App.tsx 2074-2087): rendered from
outdatedResults.filter((r) => !r.success), each row showing project_name and
error. -/
def outdatedErrorList (results : List OutdatedResult) : List OutdatedResult :=
  results.filter (fun r => !r.success)

/-- Unit array of formatBytes (App.tsx 377): const sizes = ["B", "KB", "MB",
"GB"]. -/
def sizes : List String := ["B", "KB", "MB", "GB"]

/-- Unit index of formatBytes (App.tsx 378): Math.floor(Math.log(bytes) /
Math.log(k)) with k = 1024, modelled exactly as the floor of the base-1024
logarithm of a positive integer, which is Nat.log 1024. -/
def unitIndex (bytes : Nat) : Nat := Nat.log 1024 bytes

/-- formatBytes (App.tsx 374-380).  bytes === 0 returns "0 B"; otherwise the
value is scaled by 1024 ^ i, rendered to one decimal and suffixed with
sizes[i].  JS double arithmetic is idealized as exact rational arithmetic
(toFixed(1) is round-to-nearest at one decimal, modelled by round), and the
out-of-bounds array access sizes[i] (undefined for i >= 4) is modelled as
List.get?, so a missing unit makes the result none. -/
def formatBytes (bytes : Nat) : Option String :=
  if bytes = 0 then some "0 B"
  else
    (sizes.get? (unitIndex bytes)).map
      (fun u =>
        toString ((round ((bytes : ℚ) / (1024 : ℚ) ^ unitIndex bytes * 10) : ℤ) / 10 : ℚ)
          ++ " " ++ u)

/-- JS String.prototype.startsWith, used by the cargo-complete listener and
the job-cancel handler on job ids: a prefix test on the character
sequence. -/
def jsStartsWith (s p : String) : Bool := p.data.isPrefixOf s.data

/-- Job id built by runCargoCommand (App.tsx 1193): cargo-, the command, a
dash, and Date.now(). -/
def cargoJobId (command : String) (now : Nat) : String :=
  "cargo-" ++ command ++ "-" ++ toString now

/-- scanProjects job bookkeeping (App.tsx 564-580): addJob("scan", ...) before
the scan_projects invoke; the catch swallows failures, so removeJob("scan")
runs whether the invoke succeeded (invokeOk = true) or threw. -/
def scanProjectsJobs (jobs : List BackgroundJob) (now : Nat) (invokeOk : Bool) :
    List BackgroundJob :=
  let started := addJob jobs "scan" "Scanning projects..." now
  match invokeOk with
  | true => removeJob started "scan"
  | false => removeJob started "scan"

/-- checkAllOutdated job bookkeeping (App.tsx 662-683): fixed id "outdated",
removed on both the success and the catch path. -/
def checkAllOutdatedJobs (jobs : List BackgroundJob) (now : Nat)
    (invokeOk : Bool) : List BackgroundJob :=
  let started := addJob jobs "outdated" "Checking dependencies..." now
  match invokeOk with
  | true => removeJob started "outdated"
  | false => removeJob started "outdated"

/-- analyzeDependencies job bookkeeping (App.tsx 1231-1250): fixed id "deps",
removed on both paths. -/
def analyzeDependenciesJobs (jobs : List BackgroundJob) (now : Nat)
    (invokeOk : Bool) : List BackgroundJob :=
  let started := addJob jobs "deps" "Analyzing dependencies..." now
  match invokeOk with
  | true => removeJob started "deps"
  | false => removeJob started "deps"

/-- runCargoCommand job bookkeeping (App.tsx 1187-1209): registers
cargoJobId; on invoke failure the catch removes it at once; on success the
removal is deferred to the cargo-complete listener. -/
def runCargoCommandJobs (jobs : List BackgroundJob) (command : String)
    (now : Nat) (invokeOk : Bool) : List BackgroundJob :=
  let started :=
    addJob jobs (cargoJobId command now) ("cargo " ++ command ++ "...") now
  match invokeOk with
  | true => started
  | false => removeJob started (cargoJobId command now)

/-- Job-pruning step of the cargo-complete listener (App.tsx 803): setJobs(
(prev) => prev.filter((job) => !job.id.startsWith("cargo-"))). -/
def cargoCompleteJobs (jobs : List BackgroundJob) : List BackgroundJob :=
  jobs.filter (fun job => !(jsStartsWith job.id "cargo-"))

/-- Payload of the cargo-complete event emitted by the backend when a
streamed command terminates (App.tsx 793-798). -/
structure CargoCompletePayload where
  project_path : String
  command : String
  success : Bool
  exit_code : Option Int
deriving DecidableEq, Repr

/-- Buffered command result shape (CargoCommandResult interface). -/
structure CargoCommandResult where
  project_path : String
  command : String
  success : Bool
  stdout : String
  stderr : String
  exit_code : Option Int
deriving DecidableEq, Repr

/-- The slice of App state touched by the job-cancel handler and the
cargo-complete listener. -/
structure StreamState where
  jobs : List BackgroundJob
  runningCommand : Option String
  isStreaming : Bool
  runningCoverage : Bool
  commandOutput : Option CargoCommandResult
  streamingOutput : List String
deriving DecidableEq, Repr

/-- Job-cancel button onClick (App.tsx 1462-1470, identically Sidebar.tsx
93-99): removeJob(job.id), and when the id starts with cargo- the streaming
UI flags are reset.  The second component records the Tauri commands the
handler invokes on the backend — the handler consists solely of setState
calls, so it is the empty list: no terminate/kill request is ever sent. -/
def cancelJobClick (s : StreamState) (jobId : String) :
    StreamState × List String :=
  let s1 := { s with jobs := removeJob s.jobs jobId }
  if jsStartsWith jobId "cargo-" then
    ({ s1 with runningCommand := none, isStreaming := false,
               runningCoverage := false }, [])
  else (s1, [])

/-- cargo-complete listener (App.tsx 798-812): resets the streaming flags,
prunes every job whose id starts with cargo-, and converts the event payload
into the displayed command result, copying the payload's success flag
verbatim.  The tarpaulin branch (App.tsx 814-865) only updates
coverage-specific state and is omitted. -/
def cargoCompleteEvent (s : StreamState) (e : CargoCompletePayload) :
    StreamState :=
  { s with isStreaming := false,
           runningCommand := none,
           runningCoverage := false,
           jobs := cargoCompleteJobs s.jobs,
           commandOutput :=
             some ⟨e.project_path, e.command, e.success, "", "", e.exit_code⟩ }

/-- One reported vulnerability (Vulnerability interface). -/
structure Vulnerability where
  id : String
  package : String
  version : String
  title : String
  description : String
  severity : String
  url : Option String
  patched_versions : List String
deriving DecidableEq, Repr

/-- One audit warning (AuditWarning interface). -/
structure AuditWarning where
  kind : String
  package : String
  version : String
  title : String
  advisory_id : String
  url : Option String
deriving DecidableEq, Repr

/-- Per-project audit result envelope (AuditResult interface). -/
structure AuditResult where
  project_path : String
  project_name : String
  vulnerabilities : List Vulnerability
  warnings : List AuditWarning
  success : Bool
  error : Option String
deriving DecidableEq, Repr

/-- Per-project toolchain data (ToolchainInfo interface). -/
structure ToolchainInfo where
  project_path : String
  project_name : String
  toolchain : Option String
  msrv : Option String
  channel : Option String
deriving DecidableEq, Repr

/-- Toolchain or MSRV version group (ToolchainGroup interface). -/
structure ToolchainGroup where
  version : String
  projects : List String
deriving DecidableEq, Repr

/-- Aggregate toolchain analysis (ToolchainAnalysis interface). -/
structure ToolchainAnalysis where
  projects : List ToolchainInfo
  toolchain_groups : List ToolchainGroup
  msrv_groups : List ToolchainGroup
  has_mismatches : Bool
deriving DecidableEq, Repr

/-- One license entry (LicenseInfo interface). -/
structure LicenseInfo where
  name : String
  version : String
  license : String
  authors : Option String
  repository : Option String
deriving DecidableEq, Repr

/-- License group (LicenseGroup interface). -/
structure LicenseGroup where
  license : String
  packages : List String
  is_problematic : Bool
deriving DecidableEq, Repr

/-- Per-project license result envelope (LicenseResult interface). -/
structure LicenseResult where
  project_path : String
  project_name : String
  licenses : List LicenseInfo
  success : Bool
  error : Option String
deriving DecidableEq, Repr

/-- Aggregate license analysis (LicenseAnalysis interface). -/
structure LicenseAnalysis where
  projects : List LicenseResult
  license_groups : List LicenseGroup
  total_packages : Nat
  problematic_count : Nat
deriving DecidableEq, Repr

/-- Persistent result cache returned by get_cache (ScanCache interface): at
most one entry plus capture timestamp per analysis kind. -/
structure ScanCache where
  outdated_results : Option (List OutdatedResult)
  outdated_timestamp : Option Nat
  audit_results : Option (List AuditResult)
  audit_timestamp : Option Nat
  dep_analysis : Option DepAnalysis
  dep_analysis_timestamp : Option Nat
  toolchain_analysis : Option ToolchainAnalysis
  toolchain_timestamp : Option Nat
  license_analysis : Option LicenseAnalysis
  license_timestamp : Option Nat
deriving Repr

/-- The slice of App state that displays cached analysis results with their
timestamps. -/
structure CacheView where
  outdatedResults : List OutdatedResult
  outdatedTimestamp : Option Nat
  auditResults : List AuditResult
  auditTimestamp : Option Nat
  depAnalysis : Option DepAnalysis
  depAnalysisTimestamp : Option Nat
  toolchainAnalysis : Option ToolchainAnalysis
  toolchainTimestamp : Option Nat
  licenseAnalysis : Option LicenseAnalysis
  licenseTimestamp : Option Nat
deriving Repr

/-- Cache-loading portion of loadConfig (App.tsx 531-552), run at startup
before any fresh scan: for each analysis kind, if the cache holds a result it
is displayed together with its cached timestamp.  The five guarded updates
run in source order. -/
def loadConfigCache (c : ScanCache) (s : CacheView) : CacheView :=
  let s := match c.outdated_results with
    | some r => { s with outdatedResults := r,
                         outdatedTimestamp := c.outdated_timestamp }
    | none => s
  let s := match c.audit_results with
    | some r => { s with auditResults := r,
                         auditTimestamp := c.audit_timestamp }
    | none => s
  let s := match c.dep_analysis with
    | some a => { s with depAnalysis := some a,
                         depAnalysisTimestamp := c.dep_analysis_timestamp }
    | none => s
  let s := match c.toolchain_analysis with
    | some a => { s with toolchainAnalysis := some a,
                         toolchainTimestamp := c.toolchain_timestamp }
    | none => s
  match c.license_analysis with
    | some a => { s with licenseAnalysis := some a,
                         licenseTimestamp := c.license_timestamp }
    | none => s

/-- A save_*_cache Tauri command invoked by a batch success path. -/
inductive SaveCmd where
  | outdated (results : List OutdatedResult)
  | audit (results : List AuditResult)
  | depAnalysis (analysis : DepAnalysis)
  | toolchain (analysis : ToolchainAnalysis)
  | license (analysis : LicenseAnalysis)
deriving Repr

/-- Success path of checkAllOutdated (App.tsx 671-677): display the batch
results, invoke save_outdated_cache with them, and set the capture timestamp
(Math.floor(Date.now() / 1000), passed as now). -/
def checkAllOutdatedSuccess (s : CacheView) (results : List OutdatedResult)
    (now : Nat) : CacheView × List SaveCmd :=
  ({ s with outdatedResults := results, outdatedTimestamp := some now },
    [SaveCmd.outdated results])

/-- Success path of checkAllAudits (App.tsx 885-891). -/
def checkAllAuditsSuccess (s : CacheView) (results : List AuditResult)
    (now : Nat) : CacheView × List SaveCmd :=
  ({ s with auditResults := results, auditTimestamp := some now },
    [SaveCmd.audit results])

/-- Success path of analyzeDependencies (App.tsx 1238-1244). -/
def analyzeDependenciesSuccess (s : CacheView) (analysis : DepAnalysis)
    (now : Nat) : CacheView × List SaveCmd :=
  ({ s with depAnalysis := some analysis, depAnalysisTimestamp := some now },
    [SaveCmd.depAnalysis analysis])

/-- Success path of analyzeToolchains (App.tsx 1259-1265). -/
def analyzeToolchainsSuccess (s : CacheView) (analysis : ToolchainAnalysis)
    (now : Nat) : CacheView × List SaveCmd :=
  ({ s with toolchainAnalysis := some analysis,
            toolchainTimestamp := some now },
    [SaveCmd.toolchain analysis])

/-- Success path of analyzeLicenses (App.tsx 1280-1286). -/
def analyzeLicensesSuccess (s : CacheView) (analysis : LicenseAnalysis)
    (now : Nat) : CacheView × List SaveCmd :=
  ({ s with licenseAnalysis := some analysis, licenseTimestamp := some now },
    [SaveCmd.license analysis])

/-- Modelled from the spec: the backend ResultCache store (the Tauri
save_*_cache and get_cache command handlers live in the Rust backend, which is
not under src/) persists the latest aggregate result together with a capture
timestamp for its analysis kind, overwriting the previous entry of that kind
and leaving the other kinds untouched. -/
def applySave (c : ScanCache) (cmd : SaveCmd) (now : Nat) : ScanCache :=
  match cmd with
  | .outdated r =>
      { c with outdated_results := some r, outdated_timestamp := some now }
  | .audit r =>
      { c with audit_results := some r, audit_timestamp := some now }
  | .depAnalysis a =>
      { c with dep_analysis := some a, dep_analysis_timestamp := some now }
  | .toolchain a =>
      { c with toolchain_analysis := some a, toolchain_timestamp := some now }
  | .license a =>
      { c with license_analysis := some a, license_timestamp := some now }

/-- Modelled from the spec: the generic per-project result envelope
OperationResult of spec section 3; the BatchExecutor that produces it lives in
the Tauri Rust backend, which is not under src/. -/
structure OperationResult (T : Type) where
  project_path : String
  project_name : String
  success : Bool
  payload : Option T
  error : Option String

/-- Modelled from the spec: the instantaneous state of one batch — input
paths not yet launched, per-project operations currently in-flight, and
completed results in completion order (spec section 4.4). -/
structure BatchState (T : Type) where
  pending : List String
  inFlight : List String
  finished : List (OperationResult T)

/-- Modelled from the spec: one scheduling step of the BatchExecutor (spec
sections 4.4 and 5).  A new unit is launched only while strictly fewer than
limit units are in-flight, and any in-flight unit may complete with an
arbitrary result for its path — success or failure — without aborting the
batch. -/
inductive BatchStep (limit : Nat) {T : Type} :
    BatchState T → BatchState T → Prop where
  | launch (p : String) (rest : List String) (s : BatchState T)
      (hcap : s.inFlight.length < limit) (hp : s.pending = p :: rest) :
      BatchStep limit s
        { pending := rest, inFlight := p :: s.inFlight,
          finished := s.finished }
  | complete (p : String) (r : OperationResult T) (s : BatchState T)
      (hp : p ∈ s.inFlight) (hr : r.project_path = p) :
      BatchStep limit s
        { pending := s.pending, inFlight := s.inFlight.erase p,
          finished := s.finished ++ [r] }

/-- Modelled from the spec: the batch states reachable from the initial state
of a batch over the given input paths. -/
def BatchReachable (limit : Nat) {T : Type} (paths : List String)
    (s : BatchState T) : Prop :=
  Relation.ReflTransGen (BatchStep limit)
    { pending := paths, inFlight := [], finished := [] } s

/-- C7: removing an id that is not registered leaves the job list unchanged,
and removing the same id twice yields the same state as removing it once. -/
theorem removeJob_noop_and_idempotent (jobs : List BackgroundJob) (id : String) :
    ((∀ j ∈ jobs, j.id ≠ id) → removeJob jobs id = jobs) ∧
    removeJob (removeJob jobs id) id = removeJob jobs id := by
  constructor
  · intro h
    unfold removeJob
    rw [List.filter_eq_self]
    intro j hj
    simpa using h j hj
  · unfold removeJob
    rw [List.filter_filter]
    apply List.filter_congr
    intro j _
    cases hj : (j.id != id) <;> simp [hj]

/-- Witness for C7 at a concrete registry: removing an absent id "outdated" is
a no-op, and removing "scan" twice equals removing it once. -/
theorem removeJob_noop_and_idempotent_witness :
    removeJob [⟨"scan", "Scanning projects...", 17⟩] "outdated" =
      [⟨"scan", "Scanning projects...", 17⟩] ∧
    removeJob (removeJob [⟨"scan", "Scanning projects...", 17⟩] "scan") "scan" =
      removeJob [⟨"scan", "Scanning projects...", 17⟩] "scan" := by
  refine ⟨(removeJob_noop_and_idempotent _ _).1 ?_,
    (removeJob_noop_and_idempotent [⟨"scan", "Scanning projects...", 17⟩] "scan").2⟩
  decide

/-- C2 counterexample: addJob never fails and performs no uniqueness check, so
a sequence of registry operations can register two jobs with the same id.  Two
overlapping scans (scanProjects, App.tsx 569, reachable e.g. from two
concurrent cleanProject calls that each trigger a rescan) both register the
fixed id "scan" before either removes it, after which the registry holds two
concurrently-registered jobs with id "scan" and no DuplicateJob error was ever
produced (addJob is total and has no failure outcome). -/
theorem addJob_duplicate_id_counterexample :
    ((addJob (addJob [] "scan" "Scanning projects..." 0) "scan"
      "Scanning projects..." 5).countP (fun j => j.id == "scan")) = 2 := by
  decide

/-- C2 amended: the registry performs no duplicate-id rejection — addJob
appends unconditionally (registering an id already present yields a second
concurrent entry with that id rather than a DuplicateJob failure), and callers
guarantee uniqueness only partially: per-project operations suffix ids with a
timestamp, while batch operations use fixed ids such as "scan".  removeJob
removes every entry carrying the given id, deleting duplicates in one call. -/
theorem addJob_appends_unconditionally (jobs : List BackgroundJob)
    (id label : String) (now : Nat) :
    (addJob jobs id label now).countP (fun j => j.id == id) =
      jobs.countP (fun j => j.id == id) + 1 ∧
    removeJob (addJob jobs id label now) id = removeJob jobs id := by
  constructor
  · unfold addJob
    rw [List.countP_append]
    simp
  · unfold addJob removeJob
    rw [List.filter_append]
    simp

/-- C9: all five workspace-wide batch analyses pass the same path set, and a
path is passed to the batch command exactly when it is the path of a project
whose is_workspace_member flag is false, so workspace members are never
analyzed individually in a batch. -/
theorem batch_paths_exclude_workspace_members (projects : List Project) :
    checkAllAuditsPaths projects = checkAllOutdatedPaths projects ∧
    analyzeDependenciesPaths projects = checkAllOutdatedPaths projects ∧
    analyzeToolchainsPaths projects = checkAllOutdatedPaths projects ∧
    analyzeLicensesPaths projects = checkAllOutdatedPaths projects ∧
    ∀ path, path ∈ checkAllOutdatedPaths projects ↔
      ∃ p ∈ projects, p.is_workspace_member = false ∧ p.path = path := by
  refine ⟨rfl, rfl, rfl, rfl, fun path => ?_⟩
  unfold checkAllOutdatedPaths
  simp only [List.mem_map, List.mem_filter, Bool.not_eq_true']
  constructor
  · rintro ⟨p, ⟨hp, hw⟩, hpath⟩
    exact ⟨p, hp, hw, hpath⟩
  · rintro ⟨p, hp, hw, hpath⟩
    exact ⟨p, ⟨hp, hw⟩, hpath⟩

/-- C4: assuming the version groups of a dependency carry pairwise-distinct
version strings (the grouping contract of the aggregation), a dependency
appears in the rendered Version Mismatches list iff it is in the analysis and
has more than one distinct version group; and the "No version mismatches
found" placeholder is shown iff the rendered list is empty. -/
theorem mismatch_list_iff_multiple_version_groups (a : DepAnalysis)
    (d : DepUsage) (hd : (d.versions.map (fun v => v.version)).Nodup) :
    (d ∈ versionMismatchList a ↔
      d ∈ a.dependencies ∧
        1 < (d.versions.map (fun v => v.version)).toFinset.card) ∧
    (noMismatchPlaceholderShown a = true ↔ versionMismatchList a = []) := by
  constructor
  · rw [List.toFinset_card_of_nodup hd, List.length_map]
    unfold versionMismatchList
    simp [List.mem_filter]
  · unfold noMismatchPlaceholderShown versionMismatchList
    simp [List.length_eq_zero]

/-- Witness for C4 at a concrete analysis: serde with version groups 1.0.150
(two projects) and 1.0.160 (one project) appears in the mismatch list, and the
placeholder is not shown. -/
theorem mismatch_list_iff_multiple_version_groups_witness :
    (⟨"serde", [⟨"1.0.150", ["a", "b"]⟩, ⟨"1.0.160", ["c"]⟩], 3⟩ ∈
      versionMismatchList
        ⟨[⟨"serde", [⟨"1.0.150", ["a", "b"]⟩, ⟨"1.0.160", ["c"]⟩], 3⟩], 1, 1⟩ ↔
      (⟨"serde", [⟨"1.0.150", ["a", "b"]⟩, ⟨"1.0.160", ["c"]⟩], 3⟩ : DepUsage) ∈
        [⟨"serde", [⟨"1.0.150", ["a", "b"]⟩, ⟨"1.0.160", ["c"]⟩], 3⟩] ∧
        1 < ([⟨"1.0.150", ["a", "b"]⟩, ⟨"1.0.160", ["c"]⟩].map
          (fun v : VersionUsage => v.version)).toFinset.card) ∧
    (noMismatchPlaceholderShown
        ⟨[⟨"serde", [⟨"1.0.150", ["a", "b"]⟩, ⟨"1.0.160", ["c"]⟩], 3⟩], 1, 1⟩ = true ↔
      versionMismatchList
        ⟨[⟨"serde", [⟨"1.0.150", ["a", "b"]⟩, ⟨"1.0.160", ["c"]⟩], 3⟩], 1, 1⟩ = []) :=
  mismatch_list_iff_multiple_version_groups _ _ (by decide)

/-- C5: the dependencies view partitions the batch by the success flag — an
entry is in the rendered main results list iff it is a batch entry with
success = true, and in the rendered error list iff it is a batch entry with
success = false, so partial success is always visible. -/
theorem outdated_view_partitions_by_success (results : List OutdatedResult)
    (r : OutdatedResult) :
    (r ∈ outdatedSuccessList results ↔ r ∈ results ∧ r.success = true) ∧
    (r ∈ outdatedErrorList results ↔ r ∈ results ∧ r.success = false) := by
  constructor
  · unfold outdatedSuccessList
    rw [(List.mergeSort_perm (results.filter (fun r => r.success)) _).mem_iff]
    simp [List.mem_filter]
  · unfold outdatedErrorList
    simp [List.mem_filter]

/-- C10: formatBytes is well-defined only below one tebibyte — zero returns
"0 B"; for 0 < n < 1024 ^ 4 the computed unit index falls within the
four-element unit array and a formatted string is produced; for n >= 1024 ^ 4
the index is past the end of the array and the result has no valid unit. -/
theorem formatBytes_unit_in_range_iff_below_tebibyte (n : Nat) :
    formatBytes 0 = some "0 B" ∧
    (0 < n → n < 1024 ^ 4 →
      unitIndex n < sizes.length ∧ (formatBytes n).isSome = true) ∧
    (1024 ^ 4 ≤ n → sizes.get? (unitIndex n) = none ∧ formatBytes n = none) := by
  refine ⟨rfl, fun hpos hlt => ?_, fun hge => ?_⟩
  · have hidx : unitIndex n < 4 :=
      Nat.log_lt_of_lt_pow (Nat.pos_iff_ne_zero.mp hpos) hlt
    have hidx2 : unitIndex n < sizes.length := hidx
    refine ⟨hidx2, ?_⟩
    unfold formatBytes
    rw [if_neg (Nat.pos_iff_ne_zero.mp hpos)]
    rw [List.get?_eq_get hidx2]
    rfl
  · have hpos : n ≠ 0 := by positivity
    have hidx : 4 ≤ unitIndex n :=
      (Nat.pow_le_iff_le_log (by norm_num) hpos).mp hge
    have hnone : sizes.get? (unitIndex n) = none := by
      apply List.get?_eq_none.mpr
      simpa [sizes] using hidx
    refine ⟨hnone, ?_⟩
    unfold formatBytes
    rw [if_neg hpos, hnone]
    rfl

/-- Witness for C10: 2048 bytes gets a valid unit index, while one tebibyte
(1024 ^ 4 bytes) indexes past the unit array and formats with no valid unit;
zero formats as "0 B". -/
theorem formatBytes_unit_in_range_iff_below_tebibyte_witness :
    formatBytes 0 = some "0 B" ∧
    unitIndex 2048 < sizes.length ∧
    sizes.get? (unitIndex (1024 ^ 4)) = none ∧
    formatBytes (1024 ^ 4) = none := by
  refine ⟨(formatBytes_unit_in_range_iff_below_tebibyte 1).1,
    ((formatBytes_unit_in_range_iff_below_tebibyte 2048).2.1 (by norm_num)
      (by norm_num)).1,
    ((formatBytes_unit_in_range_iff_below_tebibyte (1024 ^ 4)).2.2 le_rfl).1,
    ((formatBytes_unit_in_range_iff_below_tebibyte (1024 ^ 4)).2.2 le_rfl).2⟩

/-- A job id built by cargoJobId starts with cargo-. -/
theorem cargoJobId_startsWith_cargo (command : String) (now : Nat) :
    jsStartsWith (cargoJobId command now) "cargo-" = true := by
  unfold jsStartsWith cargoJobId
  rw [ List.isPrefixOf_iff_prefix]
  simp only [String.data_append]
  rw [List.append_assoc, List.append_assoc]
  exact List.prefix_append _ _

/-- C6: each background operation registers its job when it starts, and after
the operation completes by any path the job id is no longer registered — the
fixed-id batch operations remove their id on both the success and the failure
path, a streamed cargo command is removed either by its own catch (invoke
failure) or by the cargo-complete listener's terminal prune, and cancelling
via the job-cancel control removes the id as well. -/
theorem job_registered_exactly_for_operation_span (jobs : List BackgroundJob)
    (command : String) (now : Nat) (invokeOk : Bool) (s : StreamState)
    (jobId : String) :
    ((addJob jobs "scan" "Scanning projects..." now).map
      (fun j => j.id)).contains "scan" = true ∧
    (scanProjectsJobs jobs now invokeOk).all (fun j => j.id != "scan") = true ∧
    (checkAllOutdatedJobs jobs now invokeOk).all
      (fun j => j.id != "outdated") = true ∧
    (analyzeDependenciesJobs jobs now invokeOk).all
      (fun j => j.id != "deps") = true ∧
    ((runCargoCommandJobs jobs command now invokeOk).map
      (fun j => j.id)).contains (cargoJobId command now) = invokeOk ∧
    (cargoCompleteJobs (runCargoCommandJobs jobs command now true)).all
      (fun j => j.id != cargoJobId command now) = true ∧
    (runCargoCommandJobs jobs command now false).all
      (fun j => j.id != cargoJobId command now) = true ∧
    ((cancelJobClick s jobId).1.jobs.all (fun j => j.id != jobId)) = true := by
  have hremove : ∀ (l : List BackgroundJob) (id : String),
      (removeJob l id).all (fun j => j.id != id) = true := by
    intro l id
    rw [List.all_eq_true]
    intro j hj
    exact (List.mem_filter.mp hj).2
  refine ⟨?_, ?_, ?_, ?_, ?_, ?_, ?_, ?_⟩
  · simp [addJob]
  · cases invokeOk <;> exact hremove _ _
  · cases invokeOk <;> exact hremove _ _
  · cases invokeOk <;> exact hremove _ _
  · cases invokeOk
    · unfold runCargoCommandJobs removeJob
      simp only [List.contains_eq_any_beq, List.any_eq_false, List.mem_map]
      rintro x ⟨a, ha, rfl⟩
      have h2 := (List.mem_filter.mp ha).2
      simp only [bne_iff_ne, ne_eq] at h2
      simp only [beq_iff_eq]
      exact fun h => h2 h.symm
    · unfold runCargoCommandJobs addJob
      simp [List.contains_eq_any_beq]
  · rw [List.all_eq_true]
    intro j hj
    have hkept := (List.mem_filter.mp hj).2
    rw [Bool.not_eq_true', Bool.eq_false_iff] at hkept
    rw [bne_iff_ne]
    intro hid
    apply hkept
    rw [hid]
    exact cargoJobId_startsWith_cargo command now
  · exact hremove _ _
  · have hjobs : (cancelJobClick s jobId).1.jobs = removeJob s.jobs jobId := by
      unfold cancelJobClick
      cases jsStartsWith jobId "cargo-" <;> simp
    rw [hjobs]
    exact hremove _ _

/-- C3 counterexample: cancelling the registered job cargo-test-100 removes it
from the visible job list, but the handler sends no request at all to the
backend (empty invoke list), so the child process is left running; when it
later exits successfully the terminal cargo-complete event is displayed with
success = true — contradicting the claim that the terminal completion event
reports success = false and that the child is terminated. -/
theorem cancel_leaves_child_running_counterexample :
    (cancelJobClick
        ⟨[⟨"cargo-test-100", "cargo test...", 100⟩], some "test", true, false,
          none, ["line1"]⟩ "cargo-test-100").2 = [] ∧
    ((cancelJobClick
        ⟨[⟨"cargo-test-100", "cargo test...", 100⟩], some "test", true, false,
          none, ["line1"]⟩ "cargo-test-100").1.jobs.all
      (fun j => j.id != "cargo-test-100")) = true ∧
    (cargoCompleteEvent
        (cancelJobClick
          ⟨[⟨"cargo-test-100", "cargo test...", 100⟩], some "test", true,
            false, none, ["line1"]⟩ "cargo-test-100").1
        ⟨"/proj", "test", true, some 0⟩).commandOutput =
      some ⟨"/proj", "test", true, "", "", some 0⟩ := by
  decide

/-- C3 amended: cancelling a registered job removes it from the visible job
list and resets the streaming UI flags, but no terminate request is sent to
the backend — the child process is left running, and the eventual terminal
cargo-complete event is displayed with the process's actual success flag
(which need not be false). -/
theorem cancel_removes_job_but_does_not_terminate (s : StreamState)
    (jobId : String) (e : CargoCompletePayload) :
    (cancelJobClick s jobId).2 = [] ∧
    ((cancelJobClick s jobId).1.jobs.all (fun j => j.id != jobId)) = true ∧
    ((cargoCompleteEvent (cancelJobClick s jobId).1 e).commandOutput.map
      (fun r => r.success)) = some e.success := by
  have hjobs : (cancelJobClick s jobId).1.jobs = removeJob s.jobs jobId := by
    unfold cancelJobClick
    cases jsStartsWith jobId "cargo-" <;> simp
  refine ⟨?_, ?_, ?_⟩
  · unfold cancelJobClick
    cases jsStartsWith jobId "cargo-" <;> simp
  · rw [hjobs, List.all_eq_true]
    intro j hj
    exact (List.mem_filter.mp hj).2
  · unfold cargoCompleteEvent
    rfl

/-- C8: for every analysis kind, the batch success path displays the fresh
result, sets its capture timestamp, and emits exactly one save command for its
kind; storing that command in the (spec-modelled) backend cache and running
the startup loadConfig over the stored cache displays the cached result with
its capture timestamp before any fresh scan. -/
theorem result_cache_stores_and_startup_loads (c : ScanCache)
    (s0 s1 : CacheView) (t : Nat) (ro : List OutdatedResult)
    (ra : List AuditResult) (rd : DepAnalysis) (rt : ToolchainAnalysis)
    (rl : LicenseAnalysis) :
    ((checkAllOutdatedSuccess s0 ro t).1.outdatedResults = ro ∧
      (checkAllOutdatedSuccess s0 ro t).1.outdatedTimestamp = some t ∧
      (checkAllOutdatedSuccess s0 ro t).2 = [SaveCmd.outdated ro] ∧
      (loadConfigCache (applySave c (SaveCmd.outdated ro) t) s1).outdatedResults
        = ro ∧
      (loadConfigCache (applySave c (SaveCmd.outdated ro) t) s1).outdatedTimestamp
        = some t) ∧
    ((checkAllAuditsSuccess s0 ra t).1.auditResults = ra ∧
      (checkAllAuditsSuccess s0 ra t).1.auditTimestamp = some t ∧
      (checkAllAuditsSuccess s0 ra t).2 = [SaveCmd.audit ra] ∧
      (loadConfigCache (applySave c (SaveCmd.audit ra) t) s1).auditResults
        = ra ∧
      (loadConfigCache (applySave c (SaveCmd.audit ra) t) s1).auditTimestamp
        = some t) ∧
    ((analyzeDependenciesSuccess s0 rd t).1.depAnalysis = some rd ∧
      (analyzeDependenciesSuccess s0 rd t).1.depAnalysisTimestamp = some t ∧
      (analyzeDependenciesSuccess s0 rd t).2 = [SaveCmd.depAnalysis rd] ∧
      (loadConfigCache (applySave c (SaveCmd.depAnalysis rd) t) s1).depAnalysis
        = some rd ∧
      (loadConfigCache (applySave c (SaveCmd.depAnalysis rd) t)
        s1).depAnalysisTimestamp = some t) ∧
    ((analyzeToolchainsSuccess s0 rt t).1.toolchainAnalysis = some rt ∧
      (analyzeToolchainsSuccess s0 rt t).1.toolchainTimestamp = some t ∧
      (analyzeToolchainsSuccess s0 rt t).2 = [SaveCmd.toolchain rt] ∧
      (loadConfigCache (applySave c (SaveCmd.toolchain rt) t)
        s1).toolchainAnalysis = some rt ∧
      (loadConfigCache (applySave c (SaveCmd.toolchain rt) t)
        s1).toolchainTimestamp = some t) ∧
    ((analyzeLicensesSuccess s0 rl t).1.licenseAnalysis = some rl ∧
      (analyzeLicensesSuccess s0 rl t).1.licenseTimestamp = some t ∧
      (analyzeLicensesSuccess s0 rl t).2 = [SaveCmd.license rl] ∧
      (loadConfigCache (applySave c (SaveCmd.license rl) t)
        s1).licenseAnalysis = some rl ∧
      (loadConfigCache (applySave c (SaveCmd.license rl) t)
        s1).licenseTimestamp = some t) := by
  obtain ⟨co, cot, ca, cat, cd, cdt, ct, ctt, cl, clt⟩ := c
  refine ⟨⟨rfl, rfl, rfl, ?_, ?_⟩, ⟨rfl, rfl, rfl, ?_, ?_⟩,
    ⟨rfl, rfl, rfl, ?_, ?_⟩, ⟨rfl, rfl, rfl, ?_, ?_⟩,
    ⟨rfl, rfl, rfl, ?_, ?_⟩⟩ <;>
    cases co <;> cases ca <;> cases cd <;> cases ct <;> cases cl <;> rfl

/-- Inductive invariant of a batch run: the in-flight count never exceeds the
cap, and the pending, in-flight and finished paths together are a permutation
of the input paths. -/
theorem batch_invariant {T : Type} (limit : Nat) (paths : List String)
    (s : BatchState T) (h : BatchReachable limit paths s) :
    s.inFlight.length ≤ limit ∧
    List.Perm
      (s.pending ++ s.inFlight ++ s.finished.map (fun r => r.project_path))
      paths := by
  induction h with
  | refl => constructor <;> simp
  | @tail b c hr step ih =>
    obtain ⟨ihcap, ihperm⟩ := ih
    cases step with
    | launch p rest st hcap hp =>
      dsimp only
      constructor
      · simp only [List.length_cons]
        omega
      · refine List.Perm.trans ?_ ihperm
        rw [hp]
        simp only [List.append_assoc, List.cons_append]
        exact List.perm_middle
    | complete p r st hp hr =>
      dsimp only
      constructor
      · exact le_trans (List.erase_sublist p b.inFlight).length_le ihcap
      · have h1 : List.Perm b.inFlight (p :: b.inFlight.erase p) :=
          List.perm_cons_erase hp
        have hmap : (b.finished ++ [r]).map (fun r => r.project_path)
            = b.finished.map (fun r => r.project_path) ++ [p] := by
          simp [hr]
        rw [hmap]
        refine List.Perm.trans ?_ ihperm
        simp only [List.append_assoc]
        refine List.Perm.append_left b.pending ?_
        have hL : List.Perm
            (b.inFlight.erase p ++
              (b.finished.map (fun r => r.project_path) ++ [p]))
            (p :: (b.inFlight.erase p ++
              b.finished.map (fun r => r.project_path))) := by
          rw [← List.append_assoc]
          exact List.perm_append_singleton _ _
        have hR : List.Perm
            (b.inFlight ++ b.finished.map (fun r => r.project_path))
            (p :: (b.inFlight.erase p ++
              b.finished.map (fun r => r.project_path))) := by
          simpa using
            List.Perm.append_right (b.finished.map (fun r => r.project_path)) h1
        exact hL.trans hR.symm

/-- C1: in every state reachable in a batch run over N input paths with
concurrency cap C, at most C per-project operations are concurrently
in-flight; and when the batch has drained (nothing pending, nothing
in-flight) the finished result sequence has exactly N entries, one
OperationResult per input path (its path multiset is a permutation of the
input), regardless of how many individual operations failed. -/
theorem batch_executor_cap_and_result_count {T : Type} (limit : Nat)
    (paths : List String) (s : BatchState T)
    (h : BatchReachable limit paths s) :
    s.inFlight.length ≤ limit ∧
    (s.pending = [] → s.inFlight = [] →
      s.finished.length = paths.length ∧
      List.Perm (s.finished.map (fun r => r.project_path)) paths) := by
  obtain ⟨hcap, hperm⟩ := batch_invariant limit paths s h
  refine ⟨hcap, fun hpend hfl => ?_⟩
  rw [hpend, hfl] at hperm
  simp only [List.nil_append] at hperm
  exact ⟨by simpa using hperm.length_eq, hperm⟩

/-- Witness for C1: a concrete batch of the two paths a and b with cap 1,
where a succeeds and b fails, runs to completion with exactly two results
whose paths are a permutation of the input. -/
theorem batch_executor_cap_and_result_count_witness :
    ([] : List String).length ≤ 1 ∧
    ([(⟨"a", "a", true, some (), none⟩ : OperationResult Unit),
      ⟨"b", "b", false, none, some "tool not installed"⟩].length
        = (["a", "b"] : List String).length) ∧
    List.Perm
      ([(⟨"a", "a", true, some (), none⟩ : OperationResult Unit),
        ⟨"b", "b", false, none, some "tool not installed"⟩].map
          (fun r => r.project_path))
      ["a", "b"] := by
  have h0 : BatchReachable 1 ["a", "b"]
      (⟨["a", "b"], [], []⟩ : BatchState Unit) :=
    Relation.ReflTransGen.refl
  have h1 := Relation.ReflTransGen.tail h0
    (BatchStep.launch "a" ["b"] ⟨["a", "b"], [], []⟩ (by decide) rfl)
  have h1' : BatchReachable 1 ["a", "b"]
      (⟨["b"], ["a"], []⟩ : BatchState Unit) := h1
  have h2 := Relation.ReflTransGen.tail h1'
    (BatchStep.complete "a" ⟨"a", "a", true, some (), none⟩
      ⟨["b"], ["a"], []⟩ (by simp) rfl)
  have h2' : BatchReachable 1 ["a", "b"]
      (⟨["b"], [], [⟨"a", "a", true, some (), none⟩]⟩ : BatchState Unit) := by
    simpa using h2
  have h3 := Relation.ReflTransGen.tail h2'
    (BatchStep.launch "b" [] ⟨["b"], [], [⟨"a", "a", true, some (), none⟩]⟩
      (by decide) rfl)
  have h3' : BatchReachable 1 ["a", "b"]
      (⟨[], ["b"], [⟨"a", "a", true, some (), none⟩]⟩ : BatchState Unit) := h3
  have h4 := Relation.ReflTransGen.tail h3'
    (BatchStep.complete "b" ⟨"b", "b", false, none, some "tool not installed"⟩
      ⟨[], ["b"], [⟨"a", "a", true, some (), none⟩]⟩ (by simp) rfl)
  have h4' : BatchReachable 1 ["a", "b"]
      (⟨[], [], [⟨"a", "a", true, some (), none⟩,
        ⟨"b", "b", false, none, some "tool not installed"⟩]⟩ :
          BatchState Unit) := by
    simpa using h4
  obtain ⟨hcap, hfin⟩ := batch_executor_cap_and_result_count 1 ["a", "b"] _ h4'
  obtain ⟨hlen, hperm⟩ := hfin rfl rfl
  exact ⟨hcap, hlen, hperm⟩

end RustHelper
